import Mathlib

/-!
Verification of the webrtc-unreliable-client slim core against its
specification.  The Rust source under `src/slim` is shallowly embedded:
the `RTCRtpSender` state machine (`replace_track`, `send`, `stop`,
`has_sent`), the TURN long-term credential derivation
(`generate_auth_key`, `LongTermAuthHandler::auth_handle`), and the ICE
`PriorityAttr` STUN setter.  Async lock-protected fields become plain
state fields; fallible calls become `Except`; side effects on external
collaborators (track unbind, transform-chain bind/unbind, writer close)
are recorded in an event trace.
-/

namespace Webrtc

/-- Media kind of a track or transceiver (`RTPCodecType`). -/
inductive RTPCodecType
  | audio
  | video
  | unspecified
deriving DecidableEq, Repr

/-- The error cases of `crate::webrtc::error::Error` that this slim core
can produce or propagate.  `other` stands for an arbitrary upstream
error value propagated verbatim (track unbind / writer close failures);
`newError` is `Error::new(msg)`. -/
inductive Err
  | errRTPSenderSendAlreadyCalled
  | errRTPSenderNewTrackHasIncorrectKind
  | newError (msg : String)
  | other (code : Nat)
deriving DecidableEq, Repr

/-- `TrackLocalContext`: the minimal binding context passed to a track on
bind/unbind; it carries only the sender id. -/
structure TrackLocalContext where
  id : String
deriving DecidableEq, Repr

/-- A `TrackLocal` trait object as the sender sees it: an identity (so
distinct handles can be told apart), a media kind, and the result its
`unbind` call returns (`none` = `Ok(())`). -/
structure TrackLocal where
  tid : Nat
  kind : RTPCodecType
  unbindErr : Option Err
deriving DecidableEq, Repr

/-- The transceiver as seen through the sender's weak reference: only its
`kind` is read. -/
structure TransceiverRef where
  kind : RTPCodecType
deriving DecidableEq, Repr

/-- Modelled from the spec: `RTCRtpCodecCapability` lives outside the
slim sources; per the spec it is an opaque codec capability value handed
to the stream descriptor. -/
structure RTCRtpCodecCapability where
  mimeType : String
  clockRate : Nat
deriving DecidableEq, Repr

/-- Modelled from the spec: default capability (Rust `Default` derive:
empty string, zero). -/
def RTCRtpCodecCapability.default : RTCRtpCodecCapability :=
  { mimeType := "", clockRate := 0 }

/-- Modelled from the spec: `RTCRtpCodecParameters` outside the slim
sources; a payload type together with a capability. -/
structure RTCRtpCodecParameters where
  capability : RTCRtpCodecCapability
  payloadType : Nat
deriving DecidableEq, Repr

/-- Modelled from the spec: `RTCRtpCodecParameters::default()` (Rust
`Default` derive: default capability, payload type 0). -/
def RTCRtpCodecParameters.default : RTCRtpCodecParameters :=
  { capability := RTCRtpCodecCapability.default, payloadType := 0 }

/-- One encoding entry of the send parameters (`RTCRtpEncodingParameters`):
an SSRC and a payload type. -/
structure RTCRtpEncodingParameters where
  ssrc : Nat
  payloadType : Nat
deriving DecidableEq, Repr

/-- `RTCRtpSendParameters`: a list of encodings. -/
structure RTCRtpSendParameters where
  encodings : List RTCRtpEncodingParameters
deriving DecidableEq, Repr

/-- Modelled from the spec: the `StreamInfo` built by `create_stream_info`
(which lives outside the slim sources): stream id, SSRC, payload type,
codec capability; the extension list the sender passes is always empty. -/
structure StreamInfo where
  id : String
  ssrc : Nat
  payloadType : Nat
  capability : RTCRtpCodecCapability
deriving DecidableEq, Repr

/-- Modelled from the spec: `create_stream_info` is pure construction of
the immutable descriptor from its arguments. -/
def create_stream_info (id : String) (ssrc : Nat) (payloadType : Nat)
    (capability : RTCRtpCodecCapability) : StreamInfo :=
  { id := id, ssrc := ssrc, payloadType := payloadType, capability := capability }

/-- Externally visible side effects of a sender operation, in call order.
`trackBind` never occurs in this slim core (no code path calls
`TrackLocal::bind`); it is in the vocabulary so that its absence is a
statable property. -/
inductive Event
  | trackUnbind (tid : Nat) (ctx : TrackLocalContext)
  | trackBind (tid : Nat)
  | bindLocalStream (si : StreamInfo)
  | unbindLocalStream (si : StreamInfo)
  | srtpClose
deriving DecidableEq, Repr

/-- The `RTCRtpSender` state: each lock-protected or atomic field becomes
a plain field.  `sendCalledTx` is `true` while the one-shot channel
sender is still present (`send_called_tx` is `Some`); `send` takes it.
`srtpCloseErr` is the result `srtp_stream.close()` will return
(`none` = `Ok(())`).  The weak transceiver reference is
`Option (Option TransceiverRef)`: outer `none` = no reference stored,
inner `none` = the `Weak::upgrade` fails. -/
structure RTCRtpSender where
  track : Option TrackLocal
  streamInfo : StreamInfo
  context : TrackLocalContext
  payloadType : Nat
  ssrc : Nat
  negotiated : Bool
  id : String
  rtpTransceiver : Option (Option TransceiverRef)
  sendCalledTx : Bool
  stopCalledSignal : Bool
  srtpCloseErr : Option Err
deriving DecidableEq, Repr

/-- `has_sent`: the one-shot channel sender has been taken
(`send_called_tx.is_none()`). -/
def RTCRtpSender.has_sent (s : RTCRtpSender) : Bool :=
  !s.sendCalledTx

/-- `is_negotiated`. -/
def RTCRtpSender.is_negotiated (s : RTCRtpSender) : Bool :=
  s.negotiated

/-- `set_negotiated`. -/
def RTCRtpSender.set_negotiated (s : RTCRtpSender) : RTCRtpSender :=
  { s with negotiated := true }

/-- `get_parameters`: a single encoding entry carrying the sender's SSRC
and payload type. -/
def RTCRtpSender.get_parameters (s : RTCRtpSender) : RTCRtpSendParameters :=
  { encodings := [{ ssrc := s.ssrc, payloadType := s.payloadType }] }

/-- `replace_track`: kind-validate the new track against the weak
transceiver reference when it resolves; if a send has occurred, unbind
the currently held track with the stored context, propagating its
failure; install the new track only when no send has occurred or the new
track is `None`.  Returns (result, post-state, events). -/
def RTCRtpSender.replace_track (s : RTCRtpSender)
    (track : Option TrackLocal) :
    Except Err Unit × RTCRtpSender × List Event :=
  let kindErr : Option Err :=
    match track, s.rtpTransceiver with
    | some t, some (some r) =>
        if r.kind ≠ t.kind then some Err.errRTPSenderNewTrackHasIncorrectKind
        else none
    | _, _ => none
  match kindErr with
  | some e => (Except.error e, s, [])
  | none =>
    let unbindStep : Except Err Unit × List Event :=
      if s.has_sent then
        match s.track with
        | some t =>
          (match t.unbindErr with
           | some e => Except.error e
           | none => Except.ok (), [Event.trackUnbind t.tid s.context])
        | none => (Except.ok (), [])
      else (Except.ok (), [])
    match unbindStep with
    | (Except.error e, evs) => (Except.error e, s, evs)
    | (Except.ok _, evs) =>
      if !s.has_sent || track.isNone then
        (Except.ok (), { s with track := track }, evs)
      else
        (Except.ok (), s, evs)

/-- Outcome of `send`: `panic` models the unguarded
`parameters.encodings[0]` indexing going out of bounds. -/
inductive SendOutcome
  | panic
  | error (e : Err) (s : RTCRtpSender)
  | ok (s : RTCRtpSender) (evs : List Event)
deriving DecidableEq, Repr

/-- `send`: fail with `ErrRTPSenderSendAlreadyCalled` if already sent;
resolve the codec (any bound track yields the `"unsupported codec"`
error, no bound track yields the default codec parameters); build the
stream info from the sender id, `parameters.encodings[0].ssrc`, the
payload type and the capability; bind the local stream into the
interceptor chain; install context and stream info; take the one-shot
channel sender. -/
def RTCRtpSender.send (s : RTCRtpSender) (parameters : RTCRtpSendParameters) :
    SendOutcome :=
  if s.has_sent then
    SendOutcome.error Err.errRTPSenderSendAlreadyCalled s
  else
    let context : TrackLocalContext := { id := s.id }
    match s.track with
    | some _ => SendOutcome.error (Err.newError "unsupported codec") s
    | none =>
      let codec := RTCRtpCodecParameters.default
      let payload_type := codec.payloadType
      let capability := codec.capability
      match parameters.encodings[0]? with
      | none => SendOutcome.panic
      | some enc0 =>
        let stream_info := create_stream_info s.id enc0.ssrc payload_type capability
        SendOutcome.ok
          { s with
              context := context
              streamInfo := stream_info
              sendCalledTx := false }
          [Event.bindLocalStream stream_info]

/-- `stop`: return success immediately if the stopped flag is set; set
it; return success if no send has occurred; else `replace_track(None)`,
unbind the stored stream info from the interceptor chain, and close the
SRTP writer, propagating the first error.  Returns
(result, post-state, events). -/
def RTCRtpSender.stop (s : RTCRtpSender) :
    Except Err Unit × RTCRtpSender × List Event :=
  if s.stopCalledSignal then
    (Except.ok (), s, [])
  else
    let s1 : RTCRtpSender := { s with stopCalledSignal := true }
    if !s1.has_sent then
      (Except.ok (), s1, [])
    else
      match s1.replace_track none with
      | (Except.error e, s2, evs) => (Except.error e, s2, evs)
      | (Except.ok _, s2, evs) =>
        let evs2 := evs ++ [Event.unbindLocalStream s2.streamInfo]
        match s2.srtpCloseErr with
        | some e => (Except.error e, s2, evs2 ++ [Event.srtpClose])
        | none => (Except.ok (), s2, evs2 ++ [Event.srtpClose])

/-! ### Byte-level primitives used by the TURN auth module.
The Rust code calls the external crates `md5`, `ring` (HMAC-SHA1) and
`base64`; these are embedded as the standard algorithms over byte lists
(bytes are `Nat` values below 256, words are `Nat` values below 2^32). -/

/-- UTF-8 encoding of one code point (`str::as_bytes` per character). -/
def utf8EncodeChar (c : Nat) : List Nat :=
  if c < 128 then [c]
  else if c < 2048 then
    [192 + c / 64, 128 + c % 64]
  else if c < 65536 then
    [224 + c / 4096, 128 + c / 64 % 64, 128 + c % 64]
  else
    [240 + c / 262144, 128 + c / 4096 % 64, 128 + c / 64 % 64, 128 + c % 64]

/-- The UTF-8 bytes of a string (`str::as_bytes`). -/
def strBytes (s : String) : List Nat :=
  s.data.flatMap (fun c => utf8EncodeChar c.toNat)

/-- 32-bit left rotation on a `Nat` below 2^32. -/
def rotl32 (x n : Nat) : Nat :=
  ((x <<< n) % 4294967296) ||| (x >>> (32 - n))

/-- 4 little-endian bytes of a 32-bit word. -/
def toLeBytes4 (n : Nat) : List Nat :=
  [n % 256, n / 256 % 256, n / 65536 % 256, n / 16777216 % 256]

/-- 4 big-endian bytes of a 32-bit word. -/
def toBeBytes4 (n : Nat) : List Nat :=
  [n / 16777216 % 256, n / 65536 % 256, n / 256 % 256, n % 256]

/-- 8 little-endian bytes of a 64-bit value. -/
def toLeBytes8 (n : Nat) : List Nat :=
  [n % 256, n / 256 % 256, n / 65536 % 256, n / 16777216 % 256,
   n / 4294967296 % 256, n / 1099511627776 % 256,
   n / 281474976710656 % 256, n / 72057594037927936 % 256]

/-- 8 big-endian bytes of a 64-bit value. -/
def toBeBytes8 (n : Nat) : List Nat :=
  (toLeBytes8 n).reverse

/-- Split a byte list into 64-byte chunks (the list length is a multiple
of 64 after padding). -/
def chunks64 (l : List Nat) : List (List Nat) :=
  (List.range (l.length / 64)).map (fun i => (l.drop (64 * i)).take 64)

/-- Merkle–Damgård padding: append `0x80`, zeros to 56 mod 64, then the
8-byte bit length (little-endian for MD5, big-endian for SHA-1). -/
def padMessage (beLength : Bool) (msg : List Nat) : List Nat :=
  let len := msg.length
  let zeros := (64 - (len + 9) % 64) % 64
  let lenBytes :=
    if beLength then toBeBytes8 (len * 8 % 18446744073709551616)
    else toLeBytes8 (len * 8 % 18446744073709551616)
  msg ++ 128 :: List.replicate zeros 0 ++ lenBytes

/-- Little-endian 32-bit word `j` of a 64-byte chunk. -/
def leWordAt (chunk : List Nat) (j : Nat) : Nat :=
  chunk.getD (4 * j) 0 + chunk.getD (4 * j + 1) 0 * 256 +
    chunk.getD (4 * j + 2) 0 * 65536 + chunk.getD (4 * j + 3) 0 * 16777216

/-- Big-endian 32-bit word `j` of a 64-byte chunk. -/
def beWordAt (chunk : List Nat) (j : Nat) : Nat :=
  chunk.getD (4 * j) 0 * 16777216 + chunk.getD (4 * j + 1) 0 * 65536 +
    chunk.getD (4 * j + 2) 0 * 256 + chunk.getD (4 * j + 3) 0

/-- The 64 MD5 sine-derived constants. -/
def md5K : List Nat :=
  [0xd76aa478, 0xe8c7b756, 0x242070db, 0xc1bdceee,
   0xf57c0faf, 0x4787c62a, 0xa8304613, 0xfd469501,
   0x698098d8, 0x8b44f7af, 0xffff5bb1, 0x895cd7be,
   0x6b901122, 0xfd987193, 0xa679438e, 0x49b40821,
   0xf61e2562, 0xc040b340, 0x265e5a51, 0xe9b6c7aa,
   0xd62f105d, 0x02441453, 0xd8a1e681, 0xe7d3fbc8,
   0x21e1cde6, 0xc33707d6, 0xf4d50d87, 0x455a14ed,
   0xa9e3e905, 0xfcefa3f8, 0x676f02d9, 0x8d2a4c8a,
   0xfffa3942, 0x8771f681, 0x6d9d6122, 0xfde5380c,
   0xa4beea44, 0x4bdecfa9, 0xf6bb4b60, 0xbebfbc70,
   0x289b7ec6, 0xeaa127fa, 0xd4ef3085, 0x04881d05,
   0xd9d4d039, 0xe6db99e5, 0x1fa27cf8, 0xc4ac5665,
   0xf4292244, 0x432aff97, 0xab9423a7, 0xfc93a039,
   0x655b59c3, 0x8f0ccc92, 0xffeff47d, 0x85845dd1,
   0x6fa87e4f, 0xfe2ce6e0, 0xa3014314, 0x4e0811a1,
   0xf7537e82, 0xbd3af235, 0x2ad7d2bb, 0xeb86d391]

/-- The 64 MD5 per-round left-rotation amounts. -/
def md5S : List Nat :=
  [7, 12, 17, 22, 7, 12, 17, 22, 7, 12, 17, 22, 7, 12, 17, 22,
   5, 9, 14, 20, 5, 9, 14, 20, 5, 9, 14, 20, 5, 9, 14, 20,
   4, 11, 16, 23, 4, 11, 16, 23, 4, 11, 16, 23, 4, 11, 16, 23,
   6, 10, 15, 21, 6, 10, 15, 21, 6, 10, 15, 21, 6, 10, 15, 21]

/-- One MD5 round on state `(a, b, c, d)` with round index `i`. -/
def md5Round (chunk : List Nat) (st : Nat × Nat × Nat × Nat) (i : Nat) :
    Nat × Nat × Nat × Nat :=
  let (a, b, c, d) := st
  let notB := b ^^^ 4294967295
  let notD := d ^^^ 4294967295
  let fg : Nat × Nat :=
    if i < 16 then ((b &&& c) ||| (notB &&& d), i)
    else if i < 32 then ((d &&& b) ||| (notD &&& c), (5 * i + 1) % 16)
    else if i < 48 then (b ^^^ c ^^^ d, (3 * i + 5) % 16)
    else (c ^^^ (b ||| notD), (7 * i) % 16)
  let f := (fg.1 + a + md5K.getD i 0 + leWordAt chunk fg.2) % 4294967296
  (d, (b + rotl32 f (md5S.getD i 0)) % 4294967296, b, c)

/-- MD5 compression of one 64-byte chunk into the running state. -/
def md5Compress (st : Nat × Nat × Nat × Nat) (chunk : List Nat) :
    Nat × Nat × Nat × Nat :=
  let r := (List.range 64).foldl (md5Round chunk) st
  ((st.1 + r.1) % 4294967296, (st.2.1 + r.2.1) % 4294967296,
   (st.2.2.1 + r.2.2.1) % 4294967296, (st.2.2.2 + r.2.2.2) % 4294967296)

/-- The final MD5 state over a whole message. -/
def md5State (msg : List Nat) : Nat × Nat × Nat × Nat :=
  (chunks64 (padMessage false msg)).foldl md5Compress
    (0x67452301, 0xefcdab89, 0x98badcfe, 0x10325476)

/-- MD5 digest: 16 bytes, the four state words little-endian. -/
def md5 (msg : List Nat) : List Nat :=
  let st := md5State msg
  toLeBytes4 st.1 ++ toLeBytes4 st.2.1 ++ toLeBytes4 st.2.2.1 ++ toLeBytes4 st.2.2.2

/-- SHA-1 message schedule: 80 expanded 32-bit words of a chunk. -/
def sha1Schedule (chunk : List Nat) : List Nat :=
  (List.range 80).foldl
    (fun w i =>
      if i < 16 then w ++ [beWordAt chunk i]
      else
        w ++ [rotl32 (w.getD (i - 3) 0 ^^^ w.getD (i - 8) 0 ^^^
                      w.getD (i - 14) 0 ^^^ w.getD (i - 16) 0) 1])
    []

/-- One SHA-1 round on state `(a, b, c, d, e)`. -/
def sha1Round (w : List Nat) (st : Nat × Nat × Nat × Nat × Nat) (i : Nat) :
    Nat × Nat × Nat × Nat × Nat :=
  let (a, b, c, d, e) := st
  let fk : Nat × Nat :=
    if i < 20 then ((b &&& c) ||| ((b ^^^ 4294967295) &&& d), 0x5a827999)
    else if i < 40 then (b ^^^ c ^^^ d, 0x6ed9eba1)
    else if i < 60 then ((b &&& c) ||| (b &&& d) ||| (c &&& d), 0x8f1bbcdc)
    else (b ^^^ c ^^^ d, 0xca62c1d6)
  let temp := (rotl32 a 5 + fk.1 + e + fk.2 + w.getD i 0) % 4294967296
  (temp, a, rotl32 b 30, c, d)

/-- SHA-1 compression of one 64-byte chunk into the running state. -/
def sha1Compress (st : Nat × Nat × Nat × Nat × Nat) (chunk : List Nat) :
    Nat × Nat × Nat × Nat × Nat :=
  let w := sha1Schedule chunk
  let r := (List.range 80).foldl (sha1Round w) st
  ((st.1 + r.1) % 4294967296, (st.2.1 + r.2.1) % 4294967296,
   (st.2.2.1 + r.2.2.1) % 4294967296, (st.2.2.2.1 + r.2.2.2.1) % 4294967296,
   (st.2.2.2.2 + r.2.2.2.2) % 4294967296)

/-- SHA-1 digest: 20 bytes, the five state words big-endian. -/
def sha1 (msg : List Nat) : List Nat :=
  let st := (chunks64 (padMessage true msg)).foldl sha1Compress
    (0x67452301, 0xefcdab89, 0x98badcfe, 0x10325476, 0xc3d2e1f0)
  toBeBytes4 st.1 ++ toBeBytes4 st.2.1 ++ toBeBytes4 st.2.2.1 ++
    toBeBytes4 st.2.2.2.1 ++ toBeBytes4 st.2.2.2.2

/-- HMAC-SHA1 (`ring::hmac` with `HMAC_SHA1_FOR_LEGACY_USE_ONLY`). -/
def hmacSha1 (key msg : List Nat) : List Nat :=
  let key := if 64 < key.length then sha1 key else key
  let key := key ++ List.replicate (64 - key.length) 0
  let ipad := key.map (fun b => b ^^^ 0x36)
  let opad := key.map (fun b => b ^^^ 0x5c)
  sha1 (opad ++ sha1 (ipad ++ msg))

/-- The standard base64 alphabet (`base64::encode`). -/
def b64Alphabet : List Char :=
  "ABCDEFGHIJKLMNOPQRSTUVWXYZabcdefghijklmnopqrstuvwxyz0123456789+/".data

/-- Character for one 6-bit group. -/
def b64Char (n : Nat) : Char :=
  b64Alphabet.getD n 'A'

/-- Standard base64 encoding with `=` padding (`base64::encode`). -/
def base64Encode (bs : List Nat) : String :=
  let k := bs.length
  let full := (List.range (k / 3)).flatMap (fun i =>
    let n := bs.getD (3 * i) 0 * 65536 + bs.getD (3 * i + 1) 0 * 256 +
      bs.getD (3 * i + 2) 0
    [b64Char (n / 262144 % 64), b64Char (n / 4096 % 64),
     b64Char (n / 64 % 64), b64Char (n % 64)])
  let rest : List Char :=
    match k % 3 with
    | 1 =>
      let b0 := bs.getD (k - 1) 0
      [b64Char (b0 / 4 % 64), b64Char (b0 % 4 * 16), '=', '=']
    | 2 =>
      let b0 := bs.getD (k - 2) 0
      let b1 := bs.getD (k - 1) 0
      [b64Char (b0 / 4 % 64), b64Char ((b0 % 4 * 16 + b1 / 16) % 64),
       b64Char (b1 % 16 * 4 % 64), '=']
    | _ => []
  String.mk (full ++ rest)

/-! ### TURN long-term credential module (`crates/turn/auth/mod.rs`). -/

/-- The TURN error values this module produces: integer-parse failure
(`username.parse::<u64>()?`) and `Error::Other(msg)`. -/
inductive TurnErr
  | parseIntError
  | otherTurn (msg : String)
deriving DecidableEq, Repr

/-- `std::time::Duration` as (whole seconds, subsecond nanoseconds). -/
structure Duration where
  secs : Nat
  nanos : Nat
deriving DecidableEq, Repr

/-- `Duration::from_secs`. -/
def Duration.from_secs (t : Nat) : Duration :=
  { secs := t, nanos := 0 }

/-- `Duration` strict order (lexicographic on seconds then nanoseconds). -/
def Duration.ltD (a b : Duration) : Bool :=
  a.secs < b.secs || (a.secs = b.secs && a.nanos < b.nanos)

/-- `u64::from_str`: optional leading `+`, at least one ASCII digit,
value below 2^64. -/
def parseU64 (s : String) : Option Nat :=
  let ds :=
    match s.data with
    | '+' :: rest => rest
    | cs => cs
  if ds.isEmpty then none
  else if ds.all (fun c => c.isDigit) then
    let n := ds.foldl (fun acc c => acc * 10 + (c.toNat - 48)) 0
    if n < 18446744073709551616 then some n else none
  else none

/-- `long_term_credentials`: base64 of HMAC-SHA1 of the username under
the shared secret. -/
def long_term_credentials (username shared_secret : String) : String :=
  base64Encode (hmacSha1 (strBytes shared_secret) (strBytes username))

/-- `generate_auth_key`: MD5 of `"username:realm:password"`. -/
def generate_auth_key (username realm password : String) : List Nat :=
  md5 (strBytes (username ++ ":" ++ realm ++ ":" ++ password))

/-- `LongTermAuthHandler::auth_handle`: parse the username as a Unix
timestamp, fail as expired if it is before `now` (the duration since the
Unix epoch), else derive the key.  `src_addr` is only logged and is
omitted. -/
def auth_handle (shared_secret : String) (now : Duration)
    (username realm : String) : Except TurnErr (List Nat) :=
  match parseU64 username with
  | none => Except.error TurnErr.parseIntError
  | some t =>
    if Duration.ltD (Duration.from_secs t) now then
      Except.error (TurnErr.otherTurn ("Expired time-windowed username " ++ username))
    else
      Except.ok (generate_auth_key username realm
        (long_term_credentials username shared_secret))

/-! ### ICE priority attribute (`crates/ice/priority/mod.rs`). -/

/-- `stun::attributes::ATTR_PRIORITY` (0x0024). -/
def ATTR_PRIORITY : Nat := 0x0024

/-- A STUN message as its list of raw attributes (`Message::add` appends
a type/value pair). -/
structure Message where
  attributes : List (Nat × List Nat)
deriving DecidableEq, Repr

/-- `Message::add`. -/
def Message.add (m : Message) (t : Nat) (v : List Nat) : Message :=
  { attributes := m.attributes ++ [(t, v)] }

/-- `u32::to_be_bytes`. -/
def u32ToBeBytes (v : Nat) : List Nat :=
  [v / 16777216 % 256, v / 65536 % 256, v / 256 % 256, v % 256]

/-- `PriorityAttr::add_to`: serialize the 32-bit priority big-endian
into a 4-byte field and add it to the message; always succeeds. -/
def PriorityAttr.add_to (p : Nat) (m : Message) : Except Unit Message :=
  Except.ok (m.add ATTR_PRIORITY (u32ToBeBytes p))

/-- Modelled from the spec: the decoder of the priority field
(`PriorityAttr::get_from` is not among the slim sources); per the spec
the attribute is a 32-bit value serialized big-endian in a fixed 4-byte
field, so decoding reads exactly 4 bytes back into the value. -/
def decodePriority (bs : List Nat) : Option Nat :=
  match bs with
  | [b0, b1, b2, b3] => some (b0 * 16777216 + b1 * 65536 + b2 * 256 + b3)
  | _ => none

/-! ### Sample states used by witnesses. -/

/-- An empty stream info, the initial value of the `stream_info` field. -/
def emptyStreamInfo : StreamInfo :=
  { id := "", ssrc := 0, payloadType := 0, capability := RTCRtpCodecCapability.default }

/-- A freshly constructed sender: no track, one-shot channel present,
not stopped, no transceiver reference. -/
def sender0 : RTCRtpSender :=
  { track := none
    streamInfo := emptyStreamInfo
    context := { id := "" }
    payloadType := 5
    ssrc := 7
    negotiated := false
    id := "sender-id"
    rtpTransceiver := none
    sendCalledTx := true
    stopCalledSignal := false
    srtpCloseErr := none }

/-- A sample audio track whose unbind succeeds. -/
def audioTrack : TrackLocal :=
  { tid := 1, kind := RTPCodecType.audio, unbindErr := none }

/-- A sample video track whose unbind succeeds. -/
def videoTrack : TrackLocal :=
  { tid := 2, kind := RTPCodecType.video, unbindErr := none }

/-- Sample send parameters with one encoding. -/
def params1 : RTCRtpSendParameters :=
  { encodings := [{ ssrc := 42, payloadType := 96 }] }

/-! ### Helper lemmas on the sender state machine. -/

/-- `replace_track` leaves every field except possibly `track` unchanged:
the post-state is the pre-state or the pre-state with the new track
installed. -/
theorem replace_track_state (s : RTCRtpSender) (tr : Option TrackLocal) :
    (s.replace_track tr).2.1 = s ∨ (s.replace_track tr).2.1 = { s with track := tr } := by
  unfold RTCRtpSender.replace_track
  dsimp only
  split
  · exact Or.inl rfl
  · split
    · exact Or.inl rfl
    · split
      · exact Or.inr rfl
      · exact Or.inl rfl

/-- `replace_track` never resets the one-shot send flag. -/
theorem replace_track_sendCalledTx (s : RTCRtpSender) (tr : Option TrackLocal) :
    (s.replace_track tr).2.1.sendCalledTx = s.sendCalledTx := by
  rcases replace_track_state s tr with h | h <;> rw [h]

/-- `replace_track` never touches the stopped flag. -/
theorem replace_track_stopCalledSignal (s : RTCRtpSender) (tr : Option TrackLocal) :
    (s.replace_track tr).2.1.stopCalledSignal = s.stopCalledSignal := by
  rcases replace_track_state s tr with h | h <;> rw [h]

/-- `stop` leaves the one-shot send flag unchanged. -/
theorem stop_sendCalledTx (s : RTCRtpSender) :
    (s.stop).2.1.sendCalledTx = s.sendCalledTx := by
  unfold RTCRtpSender.stop
  dsimp only
  split
  · rfl
  · split
    · rfl
    · split
      · rename_i e s2 evs heq
        have := replace_track_sendCalledTx { s with stopCalledSignal := true } none
        rw [heq] at this
        exact this
      · rename_i s2 evs heq
        have := replace_track_sendCalledTx { s with stopCalledSignal := true } none
        rw [heq] at this
        dsimp only at this ⊢
        split <;> exact this

/-- C1: send succeeds at most once per sender.  If the one-shot signal
is already consumed (`has_sent`), `send` fails with
`ErrRTPSenderSendAlreadyCalled`; a successful `send` consumes the
signal; `replace_track` and `stop` never restore it; hence once sent, no
later `send` ever returns success. -/
theorem send_at_most_once (s : RTCRtpSender) (p : RTCRtpSendParameters)
    (tr : Option TrackLocal) :
    (s.has_sent = true →
      s.send p = SendOutcome.error Err.errRTPSenderSendAlreadyCalled s)
    ∧ (∀ s' evs, s.send p = SendOutcome.ok s' evs → s'.has_sent = true)
    ∧ (s.has_sent = true → (s.replace_track tr).2.1.has_sent = true)
    ∧ (s.has_sent = true → (s.stop).2.1.has_sent = true)
    ∧ (s.has_sent = true → ∀ s' evs, s.send p ≠ SendOutcome.ok s' evs) := by
  refine ⟨?_, ?_, ?_, ?_, ?_⟩
  · intro h
    unfold RTCRtpSender.send
    rw [h]
    rfl
  · intro s' evs h
    unfold RTCRtpSender.send at h
    split at h
    · exact absurd h (by simp)
    · dsimp only at h
      split at h
      · exact absurd h (by simp)
      · split at h
        · exact absurd h (by simp)
        · simp only [SendOutcome.ok.injEq] at h
          rw [← h.1]
          rfl
  · intro h
    unfold RTCRtpSender.has_sent at h ⊢
    rw [replace_track_sendCalledTx]
    exact h
  · intro h
    unfold RTCRtpSender.has_sent at h ⊢
    rw [stop_sendCalledTx]
    exact h
  · intro h s' evs hok
    unfold RTCRtpSender.send at hok
    rw [h] at hok
    exact absurd hok (by simp)

/-- Witness for C1 at a concrete already-sent sender. -/
theorem send_at_most_once_witness :
    ({ sender0 with sendCalledTx := false } : RTCRtpSender).has_sent = true
    ∧ ({ sender0 with sendCalledTx := false } : RTCRtpSender).send params1
        = SendOutcome.error Err.errRTPSenderSendAlreadyCalled
            { sender0 with sendCalledTx := false } :=
  ⟨by decide,
   (send_at_most_once { sender0 with sendCalledTx := false } params1 none).1 (by decide)⟩

/-- On a not-yet-sent sender with no bound track and a first encoding
present, `send` succeeds with the default codec parameters and the
stream info built from the sender id and `parameters.encodings[0].ssrc`. -/
theorem send_ok_of_no_track (s : RTCRtpSender) (p : RTCRtpSendParameters)
    (hns : s.has_sent = false) (ht : s.track = none)
    (enc0 : RTCRtpEncodingParameters) (rest : List RTCRtpEncodingParameters)
    (hp : p.encodings = enc0 :: rest) :
    s.send p = SendOutcome.ok
      { s with
          context := { id := s.id }
          streamInfo := create_stream_info s.id enc0.ssrc
            RTCRtpCodecParameters.default.payloadType
            RTCRtpCodecParameters.default.capability
          sendCalledTx := false }
      [Event.bindLocalStream (create_stream_info s.id enc0.ssrc
        RTCRtpCodecParameters.default.payloadType
        RTCRtpCodecParameters.default.capability)] := by
  unfold RTCRtpSender.send
  rw [hns, ht]
  dsimp only
  rw [hp]
  simp

/-- C2: on a not-yet-sent sender, any bound track makes `send` fail with
the `"unsupported codec"` error; with no bound track, the default codec
parameters are used and the stream info is built from the sender id,
`parameters.encodings[0].ssrc`, the default payload type and the default
codec capability. -/
theorem send_codec_resolution (s : RTCRtpSender) (p : RTCRtpSendParameters)
    (hns : s.has_sent = false) :
    (∀ t, s.track = some t →
      s.send p = SendOutcome.error (Err.newError "unsupported codec") s)
    ∧ (s.track = none → ∀ enc0 rest, p.encodings = enc0 :: rest →
      s.send p = SendOutcome.ok
        { s with
            context := { id := s.id }
            streamInfo := create_stream_info s.id enc0.ssrc
              RTCRtpCodecParameters.default.payloadType
              RTCRtpCodecParameters.default.capability
            sendCalledTx := false }
        [Event.bindLocalStream (create_stream_info s.id enc0.ssrc
          RTCRtpCodecParameters.default.payloadType
          RTCRtpCodecParameters.default.capability)]) := by
  constructor
  · intro t ht
    unfold RTCRtpSender.send
    rw [hns, ht]
    rfl
  · intro ht enc0 rest hp
    exact send_ok_of_no_track s p hns ht enc0 rest hp

/-- Witness for C2: a pre-bound track makes the concrete send fail as
unsupported codec; with no track the stream info carries the sender id,
the first encoding's SSRC and the default codec fields. -/
theorem send_codec_resolution_witness :
    ({ sender0 with track := some audioTrack } : RTCRtpSender).send params1
      = SendOutcome.error (Err.newError "unsupported codec")
          { sender0 with track := some audioTrack }
    ∧ sender0.send params1 = SendOutcome.ok
        { sender0 with
            context := { id := sender0.id }
            streamInfo := create_stream_info sender0.id 42
              RTCRtpCodecParameters.default.payloadType
              RTCRtpCodecParameters.default.capability
            sendCalledTx := false }
        [Event.bindLocalStream (create_stream_info sender0.id 42
          RTCRtpCodecParameters.default.payloadType
          RTCRtpCodecParameters.default.capability)] :=
  ⟨(send_codec_resolution { sender0 with track := some audioTrack } params1
      (by decide)).1 audioTrack rfl,
   (send_codec_resolution sender0 params1 (by decide)).2 rfl
     { ssrc := 42, payloadType := 96 } [] rfl⟩

/-- C9: with no bound track and not yet sent, `send` reads
`parameters.encodings[0]` unguarded, so an empty encodings list reaches
the out-of-bounds branch; a non-empty encodings list makes that branch
unreachable for every sender state. -/
theorem send_encodings_indexing (s : RTCRtpSender) (p : RTCRtpSendParameters) :
    (s.has_sent = false → s.track = none → p.encodings = [] →
      s.send p = SendOutcome.panic)
    ∧ (p.encodings ≠ [] → s.send p ≠ SendOutcome.panic) := by
  constructor
  · intro hns ht hp
    unfold RTCRtpSender.send
    rw [hns, ht]
    dsimp only
    rw [hp]
    rfl
  · intro hp
    unfold RTCRtpSender.send
    split
    · simp
    · dsimp only
      split
      · simp
      · split
        · rename_i heq
          rw [List.getElem?_eq_none_iff] at heq
          exact absurd (List.length_eq_zero.mp (Nat.le_zero.mp heq)) hp
        · simp

/-- Witness for C9: empty encodings panic on a fresh sender; the sample
one-encoding parameters never panic. -/
theorem send_encodings_indexing_witness :
    sender0.send { encodings := [] } = SendOutcome.panic
    ∧ sender0.send params1 ≠ SendOutcome.panic :=
  ⟨(send_encodings_indexing sender0 { encodings := [] }).1 (by decide) rfl rfl,
   (send_encodings_indexing sender0 params1).2 (by decide)⟩

/-- C10: the stopped flag does not gate `send`: a stopped sender that
never sent, holds no track and is given non-empty encodings still sends
successfully. -/
theorem send_ignores_stopped (s : RTCRtpSender) (p : RTCRtpSendParameters)
    (_hstopped : s.stopCalledSignal = true)
    (hns : s.has_sent = false)
    (ht : s.track = none)
    (hp : p.encodings ≠ []) :
    ∃ s' evs, s.send p = SendOutcome.ok s' evs := by
  rcases p with ⟨encs⟩
  cases encs with
  | nil => exact absurd rfl hp
  | cons enc0 rest =>
    exact ⟨_, _, send_ok_of_no_track s _ hns ht enc0 rest rfl⟩

/-- Witness for C10 at a concrete stopped, never-sent, trackless sender. -/
theorem send_ignores_stopped_witness :
    ∃ s' evs,
      ({ sender0 with stopCalledSignal := true } : RTCRtpSender).send params1
        = SendOutcome.ok s' evs :=
  send_ignores_stopped { sender0 with stopCalledSignal := true } params1
    rfl (by decide) rfl (by decide)

/-- C3: on a sender that has already sent, `replace_track` with a new
track (kind validation passing or skipped) unbinds the held track with
the stored binding context, returns success, leaves the `track` field
unchanged, and never binds the new track. -/
theorem replace_track_after_send_asymmetry (s : RTCRtpSender)
    (tNew tOld : TrackLocal)
    (hsent : s.has_sent = true)
    (htrack : s.track = some tOld)
    (hunbind : tOld.unbindErr = none)
    (hkind : ∀ r, s.rtpTransceiver = some (some r) → r.kind = tNew.kind) :
    s.replace_track (some tNew)
      = (Except.ok (), s, [Event.trackUnbind tOld.tid s.context])
    ∧ s.track = some tOld
    ∧ ∀ tid, Event.trackBind tid ∉ (s.replace_track (some tNew)).2.2 := by
  have hmain : s.replace_track (some tNew)
      = (Except.ok (), s, [Event.trackUnbind tOld.tid s.context]) := by
    unfold RTCRtpSender.replace_track
    dsimp only
    have hks : (match some tNew, s.rtpTransceiver with
        | some t, some (some r) =>
            if r.kind ≠ t.kind then some Err.errRTPSenderNewTrackHasIncorrectKind
            else none
        | _, _ => none) = (none : Option Err) := by
      rcases htr : s.rtpTransceiver with _ | tr
      · rfl
      · rcases tr with _ | r
        · rfl
        · have := hkind r htr
          simp [this]
    rw [hks]
    dsimp only
    rw [hsent, htrack]
    simp [hunbind]

  refine ⟨hmain, htrack, ?_⟩
  intro tid
  rw [hmain]
  simp

/-- Witness for C3 at a concrete already-sent sender holding the audio
track and receiving the video track with no transceiver reference. -/
theorem replace_track_after_send_asymmetry_witness :
    ({ sender0 with sendCalledTx := false, track := some audioTrack }
        : RTCRtpSender).replace_track (some videoTrack)
      = (Except.ok (),
         { sender0 with sendCalledTx := false, track := some audioTrack },
         [Event.trackUnbind audioTrack.tid sender0.context])
    ∧ ({ sender0 with sendCalledTx := false, track := some audioTrack }
        : RTCRtpSender).track = some audioTrack
    ∧ ∀ tid, Event.trackBind tid ∉
        (({ sender0 with sendCalledTx := false, track := some audioTrack }
          : RTCRtpSender).replace_track (some videoTrack)).2.2 :=
  replace_track_after_send_asymmetry
    { sender0 with sendCalledTx := false, track := some audioTrack }
    videoTrack audioTrack (by decide) rfl rfl (by intro r h; simp [sender0] at h)

/-- C4: once stopped, every further `stop` is a no-op returning success;
a `stop` on a never-sent sender returns success with no unbind and no
writer close; after any `stop`, the stopped flag is set. -/
theorem stop_idempotent_and_presend (s : RTCRtpSender) :
    (s.stopCalledSignal = true → s.stop = (Except.ok (), s, []))
    ∧ (s.stopCalledSignal = false → s.has_sent = false →
        s.stop = (Except.ok (), { s with stopCalledSignal := true }, []))
    ∧ (s.stopCalledSignal = true → (s.stop).2.1 = s)
    ∧ (s.stop).2.1.stopCalledSignal = true := by
  have h1 : s.stopCalledSignal = true → s.stop = (Except.ok (), s, []) := by
    intro h
    unfold RTCRtpSender.stop
    rw [h]
    rfl
  refine ⟨h1, ?_, ?_, ?_⟩
  · intro hstop hns
    unfold RTCRtpSender.stop
    rw [hstop]
    dsimp only
    rw [show ({ s with stopCalledSignal := true } : RTCRtpSender).has_sent = false from hns]
    rfl
  · intro h
    rw [h1 h]
  · unfold RTCRtpSender.stop
    dsimp only
    split
    · rename_i h
      exact h
    · split
      · rfl
      · split
        · rename_i e s2 evs heq
          have := replace_track_stopCalledSignal { s with stopCalledSignal := true } none
          rw [heq] at this
          exact this
        · rename_i s2 evs heq
          have := replace_track_stopCalledSignal { s with stopCalledSignal := true } none
          rw [heq] at this
          dsimp only at this ⊢
          split <;> exact this

/-- Witness for C4: stopping an already-stopped sender is a no-op; a
`stop` on the fresh never-sent sender returns success with no events. -/
theorem stop_idempotent_and_presend_witness :
    (({ sender0 with stopCalledSignal := true } : RTCRtpSender).stop
       = (Except.ok (), { sender0 with stopCalledSignal := true }, []))
    ∧ (sender0.stop = (Except.ok (), { sender0 with stopCalledSignal := true }, [])) :=
  ⟨(stop_idempotent_and_presend { sender0 with stopCalledSignal := true }).1 rfl,
   (stop_idempotent_and_presend sender0).2.1 rfl (by decide)⟩

/-- C5: `replace_track(Some(t))` fails with the kind-mismatch error
exactly when the weak transceiver reference is present, resolves, and
the kinds differ; with an absent or unresolvable reference the same call
(before any send) succeeds and installs the track.  The hypothesis rules
out a held track whose unbind result happens to be the same error value,
so that the equivalence speaks about validation alone. -/
theorem replace_track_kind_validation (s : RTCRtpSender) (t : TrackLocal)
    (hub : ∀ t0, s.track = some t0 →
      t0.unbindErr ≠ some Err.errRTPSenderNewTrackHasIncorrectKind) :
    ((s.replace_track (some t)).1
        = Except.error Err.errRTPSenderNewTrackHasIncorrectKind
      ↔ ∃ r, s.rtpTransceiver = some (some r) ∧ r.kind ≠ t.kind)
    ∧ (s.has_sent = false →
        (s.rtpTransceiver = none ∨ s.rtpTransceiver = some none) →
        s.replace_track (some t) = (Except.ok (), { s with track := some t }, [])) := by
  constructor
  · constructor
    · intro herr
      unfold RTCRtpSender.replace_track at herr
      dsimp only at herr
      split at herr
      · rename_i e heq
        rcases htr : s.rtpTransceiver with _ | tr
        · rw [htr] at heq
          simp at heq
        · rcases tr with _ | r
          · rw [htr] at heq
            simp at heq
          · rw [htr] at heq
            dsimp only at heq
            by_cases hk : r.kind = t.kind
            · simp [hk] at heq
            · exact ⟨r, rfl, hk⟩
      · split at herr
        · rename_i e evs heq
          simp only [Except.error.injEq] at herr
          by_cases hsent : s.has_sent = true
          · rw [if_pos hsent] at heq
            rcases htk : s.track with _ | t0
            · rw [htk] at heq
              simp at heq
            · rw [htk] at heq
              dsimp only at heq
              rcases hue : t0.unbindErr with _ | e0
              · rw [hue] at heq
                exact absurd heq (by simp)
              · rw [hue] at heq
                simp only [Prod.mk.injEq, Except.error.injEq] at heq
                have hne := hub t0 htk
                rw [hue] at hne
                exact absurd (by rw [heq.1, herr]) hne
          · rw [if_neg hsent] at heq
            exact absurd heq (by simp)
        · rename_i a evs heq
          split at herr <;> exact absurd herr (by simp)
    · rintro ⟨r, htr, hk⟩
      unfold RTCRtpSender.replace_track
      rw [htr]
      simp [hk]
  · intro hns htr
    unfold RTCRtpSender.replace_track
    dsimp only
    have hks : (match some t, s.rtpTransceiver with
        | some t, some (some r) =>
            if r.kind ≠ t.kind then some Err.errRTPSenderNewTrackHasIncorrectKind
            else none
        | _, _ => none) = (none : Option Err) := by
      rcases htr with h | h <;> rw [h]
    rw [hks]
    dsimp only
    rw [hns]
    rfl

/-- Witness for C5: a fresh sender resolving to an audio transceiver
rejects a video track as a kind mismatch; the same sender with no
transceiver reference accepts it. -/
theorem replace_track_kind_validation_witness :
    ((({ sender0 with rtpTransceiver := some (some { kind := RTPCodecType.audio }) }
          : RTCRtpSender).replace_track (some videoTrack)).1
        = Except.error Err.errRTPSenderNewTrackHasIncorrectKind
      ↔ ∃ r, ({ sender0 with
            rtpTransceiver := some (some { kind := RTPCodecType.audio }) }
          : RTCRtpSender).rtpTransceiver = some (some r)
          ∧ r.kind ≠ videoTrack.kind)
    ∧ (sender0.replace_track (some videoTrack)
        = (Except.ok (), { sender0 with track := some videoTrack }, [])) :=
  ⟨(replace_track_kind_validation
      { sender0 with rtpTransceiver := some (some { kind := RTPCodecType.audio }) }
      videoTrack (by intro t0 h; simp [sender0] at h)).1,
   (replace_track_kind_validation sender0 videoTrack
      (by intro t0 h; simp [sender0] at h)).2 (by decide) (Or.inl rfl)⟩

/-- `replace_track` emits no event or exactly one track-unbind event. -/
theorem replace_track_events (s : RTCRtpSender) (tr : Option TrackLocal) :
    (s.replace_track tr).2.2 = []
    ∨ ∃ tid ctx, (s.replace_track tr).2.2 = [Event.trackUnbind tid ctx] := by
  unfold RTCRtpSender.replace_track
  dsimp only
  split
  · exact Or.inl rfl
  · split
    · rename_i e evs heq
      dsimp only
      split at heq
      · split at heq
        · split at heq
          · simp only [Prod.mk.injEq] at heq
            exact Or.inr ⟨_, _, heq.2.symm⟩
          · simp at heq
        · simp at heq
      · simp at heq
    · rename_i a evs heq
      have hevs : evs = [] ∨ ∃ tid ctx, evs = [Event.trackUnbind tid ctx] := by
        split at heq
        · split at heq
          · split at heq
            · simp at heq
            · simp only [Prod.mk.injEq] at heq
              exact Or.inr ⟨_, _, heq.2.symm⟩
          · simp only [Prod.mk.injEq] at heq
            exact Or.inl heq.2.symm
        · simp only [Prod.mk.injEq] at heq
          exact Or.inl heq.2.symm
      split <;> exact hevs

/-- C6: on a sender that has sent and is not yet stopped, `stop` runs
`replace_track(None)`, then the transform-chain unbind of the stored
stream info, then the writer close, in that order; the first error is
propagated (a `replace_track` failure is returned with no further
teardown, otherwise a close failure is returned); and the writer close
never precedes the transform-chain unbind in the emitted trace. -/
theorem stop_teardown_order (s : RTCRtpSender)
    (hstop : s.stopCalledSignal = false) (hsent : s.has_sent = true) :
    (∀ e s2 evs,
       ({ s with stopCalledSignal := true } : RTCRtpSender).replace_track none
           = (Except.error e, s2, evs) →
       s.stop = (Except.error e, s2, evs))
    ∧ (∀ s2 evs,
       ({ s with stopCalledSignal := true } : RTCRtpSender).replace_track none
           = (Except.ok (), s2, evs) →
       (s2.srtpCloseErr = none →
          s.stop = (Except.ok (), s2,
            evs ++ [Event.unbindLocalStream s2.streamInfo] ++ [Event.srtpClose]))
       ∧ ∀ e, s2.srtpCloseErr = some e →
          s.stop = (Except.error e, s2,
            evs ++ [Event.unbindLocalStream s2.streamInfo] ++ [Event.srtpClose]))
    ∧ (∀ l1 l2, (s.stop).2.2 = l1 ++ Event.srtpClose :: l2 →
        ∃ si, Event.unbindLocalStream si ∈ l1) := by
  have hstopEq : s.stop =
      (match ({ s with stopCalledSignal := true } : RTCRtpSender).replace_track none with
       | (Except.error e, s2, evs) => (Except.error e, s2, evs)
       | (Except.ok _, s2, evs) =>
         match s2.srtpCloseErr with
         | some e => (Except.error e, s2,
             evs ++ [Event.unbindLocalStream s2.streamInfo] ++ [Event.srtpClose])
         | none => (Except.ok (), s2,
             evs ++ [Event.unbindLocalStream s2.streamInfo] ++ [Event.srtpClose])) := by
    unfold RTCRtpSender.stop
    rw [hstop]
    dsimp only
    rw [show ({ s with stopCalledSignal := true } : RTCRtpSender).has_sent = true from hsent]
    rfl
  refine ⟨?_, ?_, ?_⟩
  · intro e s2 evs h
    rw [hstopEq, h]
  · intro s2 evs h
    constructor
    · intro hclose
      rw [hstopEq, h]
      dsimp only
      rw [hclose]
    · intro e hclose
      rw [hstopEq, h]
      dsimp only
      rw [hclose]
  · intro l1 l2 htrace
    rw [hstopEq] at htrace
    rcases hrt : ({ s with stopCalledSignal := true } : RTCRtpSender).replace_track none
      with ⟨res, s2, evs⟩
    have hevshape := replace_track_events
      ({ s with stopCalledSignal := true } : RTCRtpSender) none
    rw [hrt] at hevshape
    dsimp only at hevshape
    rw [hrt] at htrace
    rcases res with e | u
    · dsimp only at htrace
      rcases hevshape with hn | ⟨tid, ctx, hone⟩
      · rw [hn] at htrace
        simp at htrace
      · rw [hone] at htrace
        rcases l1 with _ | ⟨a, l1⟩
        · simp at htrace
        · rcases l1 with _ | ⟨b, l1⟩ <;> simp at htrace
    · dsimp only at htrace
      rcases hevshape with hn | ⟨tid, ctx, hone⟩
      · rw [hn] at htrace
        rcases hcl : s2.srtpCloseErr with _ | e <;> rw [hcl] at htrace <;>
          dsimp only at htrace <;> simp only [List.nil_append] at htrace <;>
        · rcases l1 with _ | ⟨a, l1⟩
          · simp at htrace
          · rcases l1 with _ | ⟨b, l1⟩
            · simp only [List.cons_append, List.nil_append, List.cons.injEq] at htrace
              exact ⟨s2.streamInfo, by rw [htrace.1]; exact List.mem_singleton.mpr rfl⟩
            · simp at htrace
      · rw [hone] at htrace
        rcases hcl : s2.srtpCloseErr with _ | e <;> rw [hcl] at htrace <;>
          dsimp only at htrace <;>
        · rcases l1 with _ | ⟨a, l1⟩
          · simp at htrace
          · rcases l1 with _ | ⟨b, l1⟩
            · simp at htrace
            · rcases l1 with _ | ⟨c, l1⟩
              · simp only [List.cons_append, List.nil_append, List.cons.injEq,
                  List.append_assoc] at htrace
                exact ⟨s2.streamInfo, by
                  have hb := htrace.2.1
                  rw [hb]
                  simp⟩
              · simp at htrace

/-- Witness for C6: a sent sender holding the audio track tears down in
order: track unbind, stream unbind, writer close, all successful. -/
theorem stop_teardown_order_witness :
    ({ sender0 with sendCalledTx := false, track := some audioTrack }
        : RTCRtpSender).stop
      = (Except.ok (),
         { sender0 with
           sendCalledTx := false
           track := none
           stopCalledSignal := true },
         [Event.trackUnbind audioTrack.tid sender0.context]
           ++ [Event.unbindLocalStream emptyStreamInfo] ++ [Event.srtpClose]) :=
  ((stop_teardown_order
      { sender0 with sendCalledTx := false, track := some audioTrack }
      rfl (by decide)).2.1
    { sender0 with sendCalledTx := false, track := none, stopCalledSignal := true }
    [Event.trackUnbind audioTrack.tid sender0.context] rfl).1 rfl

/-- C7: authentication is stateless and time-windowed: a username whose
timestamp is before `now` fails as expired; a parsed, not-yet-expired
username deterministically yields the 16-byte key
MD5(`username:realm:password`) with password =
base64(HMAC-SHA1(shared_secret, username)); and `generate_auth_key` is a
deterministic function of its three string arguments. -/
theorem auth_handle_spec (shared_secret : String) (now : Duration)
    (username realm : String) (t : Nat)
    (hparse : parseU64 username = some t) :
    (Duration.ltD (Duration.from_secs t) now = true →
      auth_handle shared_secret now username realm
        = Except.error (TurnErr.otherTurn
            ("Expired time-windowed username " ++ username)))
    ∧ (Duration.ltD (Duration.from_secs t) now = false →
      auth_handle shared_secret now username realm
        = Except.ok (generate_auth_key username realm
            (long_term_credentials username shared_secret))
      ∧ (generate_auth_key username realm
          (long_term_credentials username shared_secret)).length = 16)
    ∧ (∀ u1 u2 r1 r2 p1 p2 : String, u1 = u2 → r1 = r2 → p1 = p2 →
        generate_auth_key u1 r1 p1 = generate_auth_key u2 r2 p2) := by
  have hlen : ∀ m : List Nat, (md5 m).length = 16 := by
    intro m
    unfold md5
    simp [toLeBytes4]
  refine ⟨?_, ?_, ?_⟩
  · intro hlt
    unfold auth_handle
    rw [hparse]
    dsimp only
    rw [hlt]
    rfl
  · intro hlt
    constructor
    · unfold auth_handle
      rw [hparse]
      dsimp only
      rw [hlt]
      rfl
    · exact hlen _
  · intro u1 u2 r1 r2 p1 p2 hu hr hp
    rw [hu, hr, hp]

/-- Witness for C7: with the shared secret `"pw"`, the username
`"1000000000"` is expired against a later clock and accepted against an
earlier clock, where it yields a 16-byte key. -/
theorem auth_handle_spec_witness :
    (auth_handle "pw" { secs := 2000000000, nanos := 0 } "1000000000" "realm"
      = Except.error (TurnErr.otherTurn
          ("Expired time-windowed username " ++ "1000000000")))
    ∧ (auth_handle "pw" { secs := 999999999, nanos := 0 } "1000000000" "realm"
        = Except.ok (generate_auth_key "1000000000" "realm"
            (long_term_credentials "1000000000" "pw"))
      ∧ (generate_auth_key "1000000000" "realm"
          (long_term_credentials "1000000000" "pw")).length = 16) :=
  ⟨(auth_handle_spec "pw" { secs := 2000000000, nanos := 0 } "1000000000" "realm"
      1000000000 (by decide)).1 (by decide),
   (auth_handle_spec "pw" { secs := 999999999, nanos := 0 } "1000000000" "realm"
      1000000000 (by decide)).2.1 (by decide)⟩

/-- C8: attaching `PriorityAttr(v)` for any 32-bit `v` appends to the
message an attribute of type `ATTR_PRIORITY` whose value is exactly 4
bytes, the big-endian serialization of `v`, and decoding those bytes
returns `v`. -/
theorem priority_roundtrip (v : Nat) (m : Message) (hv : v < 4294967296) :
    PriorityAttr.add_to v m
      = Except.ok { attributes := m.attributes ++ [(ATTR_PRIORITY, u32ToBeBytes v)] }
    ∧ (u32ToBeBytes v).length = 4
    ∧ decodePriority (u32ToBeBytes v) = some v := by
  refine ⟨rfl, rfl, ?_⟩
  unfold decodePriority u32ToBeBytes
  dsimp only
  congr 1
  omega

/-- Witness for C8 at the largest 32-bit value. -/
theorem priority_roundtrip_witness :
    PriorityAttr.add_to 4294967295 { attributes := [] }
      = Except.ok { attributes := [(ATTR_PRIORITY, u32ToBeBytes 4294967295)] }
    ∧ (u32ToBeBytes 4294967295).length = 4
    ∧ decodePriority (u32ToBeBytes 4294967295) = some 4294967295 :=
  priority_roundtrip 4294967295 { attributes := [] } (by norm_num)

end Webrtc
